import Mathlib

/-!
Verification of the portfolio backend (Express/Mongoose REST API):
shallow embedding of the authentication middleware and the resource
route handlers (Education, Project, Contact, User), with theorems about
visibility filtering, authentication failure handling, self-action
guards, the like toggle, the visibility toggle, token extraction,
pagination, contact validation, and password exclusion.

Identifiers are stored as natural numbers (Mongo ObjectIds), dates as
natural-number timestamps.  Fallible operations return explicit
status/response values mirroring the JSON envelopes of the handlers.
-/

set_option maxHeartbeats 1000000

namespace Portfolio

/-! ## Data model (backend/models) -/

/-- A stored User document (models/User.js): identity, credential hash,
role and active flag. -/
structure User where
  id : Nat
  name : String
  email : String
  password : String
  role : String
  isActive : Bool
  createdAt : Nat
deriving DecidableEq, Repr

/-- One entry of a Project likes array (models/Project.js): the liking
principal and a timestamp. -/
structure Like where
  userId : Nat
  timestamp : Nat
deriving DecidableEq, Repr

/-- A stored Project document (models/Project.js). -/
structure Project where
  id : Nat
  title : String
  description : String
  category : String
  status : String
  technologies : List String
  tags : List String
  startDate : Nat
  isFeatured : Bool
  isVisible : Bool
  sortOrder : Int
  views : Nat
  likes : List Like
  createdBy : Nat
  createdAt : Nat
deriving DecidableEq, Repr

/-- A stored Education document (models/Education.js). -/
structure EducationRec where
  id : Nat
  institution : String
  degree : String
  fieldOfStudy : String
  startDate : Nat
  endDate : Option Nat
  type : String
  isVisible : Bool
  sortOrder : Int
  createdBy : Nat
  createdAt : Nat
deriving DecidableEq, Repr

/-- A stored Contact document (models/Contact.js). -/
structure Contact where
  id : Nat
  name : String
  email : String
  subject : String
  message : String
  phone : Option String
  status : String
  priority : String
  ipAddress : String
  createdAt : Nat
deriving DecidableEq, Repr

/-- The whole Mongo store: one collection per model. -/
structure Store where
  users : List User
  projects : List Project
  educations : List EducationRec
  contacts : List Contact
deriving DecidableEq, Repr

/-! ## Authentication middleware (backend/middleware/auth.js) -/

/-- The parts of an inbound request the auth middleware reads: the
token cookie and the Authorization header. -/
structure Request where
  cookieToken : Option String
  authHeader : Option String
deriving DecidableEq, Repr

/-- JS truthiness of an optional string value: undefined and the empty
string are falsy. -/
def truthy : Option String → Bool
  | some s => s != ""
  | none => false

/-- Token taken from the Authorization header when it starts with
Bearer: the second space-separated component (auth.js lines 24-25). -/
def headerBearerToken (req : Request) : Option String :=
  match req.authHeader with
  | some h => if h.startsWith "Bearer" then (h.splitOn " ").get? 1 else none
  | none => none

/-- Token extraction shared by protect and optionalAuth (auth.js lines
21-26 and 110-114): the cookie token when truthy, otherwise the header
bearer token. -/
def extractToken (req : Request) : Option String :=
  if truthy req.cookieToken then req.cookieToken
  else headerBearerToken req

/-- The principal attached to the request context: the user document
loaded with select minus-password, so it carries no password field. -/
structure Principal where
  id : Nat
  name : String
  email : String
  role : String
  isActive : Bool
deriving DecidableEq, Repr

/-- User.findById(id).select(minus-password): the loaded principal. -/
def toPrincipal (u : User) : Principal :=
  {id := u.id, name := u.name, email := u.email, role := u.role,
   isActive := u.isActive}

/-- Outcome of the protect middleware: either an attached principal or
an early error response. -/
inductive AuthResult where
  | ok (p : Principal)
  | err (status : Nat) (message : String)
deriving DecidableEq, Repr

/-- Hard authentication middleware protect (auth.js lines 17-64).
verifyToken (backend/utils/jwt.js, not under src) is modelled as a
parameter returning the decoded principal id, none when signature or
expiry verification fails (the JS function throws, caught at line 57). -/
def protect (verify : String → Option Nat) (st : Store) (req : Request) :
    AuthResult :=
  match extractToken req with
  | none => .err 401 "Access denied. No token provided."
  | some token =>
    if token == "" then .err 401 "Access denied. No token provided."
    else
      match verify token with
      | none => .err 401 "Token is invalid or expired."
      | some uid =>
        match st.users.find? (fun u => u.id == uid) with
        | none => .err 401 "Token is invalid. User not found."
        | some user =>
          if user.isActive then .ok (toPrincipal user)
          else .err 401 "Account is deactivated. Please contact administrator."

/-- Soft authentication middleware optionalAuth (auth.js lines
106-130): attaches a principal when a valid token resolves to an
active user, and otherwise continues with none (the catch branch at
line 126 calls next without failing the request). -/
def optionalAuth (verify : String → Option Nat) (st : Store) (req : Request) :
    Option Principal :=
  match extractToken req with
  | none => none
  | some token =>
    if token == "" then none
    else
      match verify token with
      | none => none
      | some uid =>
        match st.users.find? (fun u => u.id == uid) with
        | some user => if user.isActive then some (toPrincipal user) else none
        | none => none

/-- Generic JSON response envelope: status code, success flag, message. -/
structure Response where
  status : Nat
  success : Bool
  message : String
deriving DecidableEq, Repr

/-- A route guarded by protect: when authentication fails the error
response is returned at once and the handler never runs, so the store
is untouched. -/
def runProtected (verify : String → Option Nat)
    (handler : Principal → Store → Response × Store)
    (st : Store) (req : Request) : Response × Store :=
  match protect verify st req with
  | .err s m => ({status := s, success := false, message := m}, st)
  | .ok p => handler p st

/-- req.user && req.user.role === admin (auth.js line 70), over the
optionally attached principal. -/
def isAdminUser : Option Principal → Bool
  | some u => u.role == "admin"
  | none => false

/-! ## Shared query helpers -/

/-- Case-insensitive substring match, embedding the regex
option-i filters built from the search query parameter. -/
def strContains (hay needle : String) : Bool :=
  decide (needle.toLower.toList <:+: hay.toLower.toList)

/-- Math.ceil(total / limit) on naturals, for a positive limit. -/
def jsCeilDiv (total limit : Nat) : Nat :=
  (total + limit - 1) / limit

/-- The pagination object of a paginated list response. -/
structure Pagination where
  total : Nat
  pages : Nat
  page : Nat
  limit : Nat
deriving DecidableEq, Repr

/-- Build the pagination object: total from countDocuments, pages from
Math.ceil(total / limit). -/
def mkPagination (total page limit : Nat) : Pagination :=
  {total := total, pages := jsCeilDiv total limit, page := page,
   limit := limit}

/-! ## Education routes (backend/routes/education.js) -/

/-- Query parameters of GET /api/education (education.js lines 25-30);
limit, sortBy, sortOrder carry their destructuring defaults. -/
structure EduListParams where
  type? : Option String := none
  limit : Nat := 20
  sortBy : String := "startDate"
  sortOrder : String := "desc"
deriving Repr

/-- The Mongo query of GET /api/education (education.js lines 33-35):
isVisible true unless the caller is an admin, plus the optional type
filter. -/
def eduMatches (user? : Option Principal) (type? : Option String)
    (e : EducationRec) : Bool :=
  (isAdminUser user? || e.isVisible) &&
  (match type? with
   | some t => e.type == t
   | none => true)

/-- Sortable field access for Education (sortBy query parameter). -/
def eduSortKey (field : String) (e : EducationRec) : Int :=
  if field == "startDate" then (e.startDate : Int)
  else if field == "sortOrder" then e.sortOrder
  else if field == "createdAt" then (e.createdAt : Int)
  else 0

/-- The Mongo sort of GET /api/education (education.js lines 38-44):
primary key sortBy in sortOrder direction, secondary key sortOrder
ascending unless it is already the primary. -/
def eduLe (sortBy sortDir : String) (a b : EducationRec) : Bool :=
  let ka := eduSortKey sortBy a
  let kb := eduSortKey sortBy b
  if ka == kb then
    if sortBy == "sortOrder" then true else decide (a.sortOrder ≤ b.sortOrder)
  else if sortDir == "desc" then decide (kb ≤ ka)
  else decide (ka ≤ kb)

/-- GET /api/education handler (education.js lines 23-62): optional
auth, visibility-filtered find, sort, limit. -/
def getEducationList (verify : String → Option Nat) (st : Store)
    (req : Request) (p : EduListParams) : Response × List EducationRec :=
  let user? := optionalAuth verify st req
  let matching := st.educations.filter (eduMatches user? p.type?)
  let sorted := matching.mergeSort (eduLe p.sortBy p.sortOrder)
  ({status := 200, success := true, message := ""}, sorted.take p.limit)

/-- GET /api/education/:id handler (education.js lines 69-99): findOne
on the id, with the visibility condition added for non-admins. -/
def getEducationById (verify : String → Option Nat) (st : Store)
    (req : Request) (id : Nat) : Response × Option EducationRec :=
  let user? := optionalAuth verify st req
  match st.educations.find?
      (fun e => e.id == id && (isAdminUser user? || e.isVisible)) with
  | none => ({status := 404, success := false,
              message := "Education record not found"}, none)
  | some e => ({status := 200, success := true, message := ""}, some e)

/-- The persisted effect of education.isVisible = !education.isVisible
followed by save (education.js lines 310-311), on the record with the
given id. -/
def flipEduVisibility (id : Nat) (x : EducationRec) : EducationRec :=
  if x.id == id then {x with isVisible := !x.isVisible} else x

/-- PUT /api/education/:id/visibility handler core (education.js lines
299-325): flip isVisible on the found record and save it. -/
def toggleEducationVisibility (st : Store) (id : Nat) : Response × Store :=
  match st.educations.find? (fun e => e.id == id) with
  | none => ({status := 404, success := false,
              message := "Education record not found"}, st)
  | some e =>
    let educations := st.educations.map (flipEduVisibility id)
    ({status := 200, success := true,
      message := if !e.isVisible then "Education record shown successfully"
                 else "Education record hidden successfully"},
     {st with educations := educations})

/-! ## Project routes (src/unnamed/part_000) -/

/-- Query parameters of GET /api/projects (part_000 lines 25-34). -/
structure ProjListParams where
  category? : Option String := none
  featured? : Option String := none
  status? : Option String := none
  limit? : Option Nat := none
  page? : Option Nat := none
  search? : Option String := none
  sortBy : String := "createdAt"
  sortOrder : String := "desc"
deriving Repr

/-- The search branch of the project list query (part_000 lines 43-50):
case-insensitive match on title, description, technologies or tags. -/
def projSearchMatch (s : String) (pr : Project) : Bool :=
  strContains pr.title s || strContains pr.description s ||
  pr.technologies.any (fun t => strContains t s) ||
  pr.tags.any (fun t => strContains t s)

/-- The Mongo query of GET /api/projects (part_000 lines 37-50):
isVisible true unless the caller is an admin, plus category, featured,
status and search filters. -/
def projMatches (user? : Option Principal) (p : ProjListParams)
    (pr : Project) : Bool :=
  (isAdminUser user? || pr.isVisible) &&
  (match p.category? with | some c => pr.category == c | none => true) &&
  (match p.featured? with
   | some f => pr.isFeatured == (f == "true")
   | none => true) &&
  (match p.status? with | some s => pr.status == s | none => true) &&
  (match p.search? with | some s => projSearchMatch s pr | none => true)

/-- Sortable field access for Project (sortBy query parameter). -/
def projSortKey (field : String) (pr : Project) : Int :=
  if field == "createdAt" then (pr.createdAt : Int)
  else if field == "sortOrder" then pr.sortOrder
  else if field == "isFeatured" then (if pr.isFeatured then 1 else 0)
  else if field == "views" then (pr.views : Int)
  else if field == "startDate" then (pr.startDate : Int)
  else 0

/-- The Mongo sort of GET /api/projects (part_000 lines 56-65):
primary key sortBy in sortOrder direction, then isFeatured descending
and sortOrder ascending unless already primary. -/
def projLe (sortBy sortDir : String) (a b : Project) : Bool :=
  let ka := projSortKey sortBy a
  let kb := projSortKey sortBy b
  if ka != kb then
    if sortDir == "desc" then decide (kb ≤ ka) else decide (ka ≤ kb)
  else
    let fa : Int := if a.isFeatured then 1 else 0
    let fb : Int := if b.isFeatured then 1 else 0
    if sortBy != "isFeatured" && fa != fb then decide (fb ≤ fa)
    else if sortBy != "sortOrder" then decide (a.sortOrder ≤ b.sortOrder)
    else true

/-- Response of GET /api/projects: page of projects plus pagination. -/
structure ProjListResult where
  status : Nat
  success : Bool
  projects : List Project
  pagination : Pagination
deriving Repr

/-- GET /api/projects handler (part_000 lines 23-95): optional auth,
filtered find with skip/limit, count in parallel, pagination object. -/
def getProjects (verify : String → Option Nat) (st : Store) (req : Request)
    (p : ProjListParams) : ProjListResult :=
  let user? := optionalAuth verify st req
  let page := p.page?.getD 1
  let limit := p.limit?.getD 20
  let skip := (page - 1) * limit
  let matching := st.projects.filter (projMatches user? p)
  let pageItems :=
    ((matching.mergeSort (projLe p.sortBy p.sortOrder)).drop skip).take limit
  {status := 200, success := true, projects := pageItems,
   pagination := mkPagination matching.length page limit}

/-- GET /api/projects/featured handler (part_000 lines 102-127):
isFeatured true, visibility-filtered for non-admins, fixed sort,
default limit 6. -/
def getFeaturedProjects (verify : String → Option Nat) (st : Store)
    (req : Request) (limit? : Option Nat) : Response × List Project :=
  let user? := optionalAuth verify st req
  let matching := st.projects.filter
    (fun pr => pr.isFeatured && (isAdminUser user? || pr.isVisible))
  let sorted := matching.mergeSort (fun a b =>
    if a.sortOrder == b.sortOrder then decide (b.createdAt ≤ a.createdAt)
    else decide (a.sortOrder ≤ b.sortOrder))
  ({status := 200, success := true, message := ""},
   sorted.take (limit?.getD 6))

/-- Response of GET /api/projects/:id. -/
structure ProjGetResult where
  status : Nat
  success : Bool
  project : Option Project
deriving Repr

/-- GET /api/projects/:id handler (part_000 lines 134-171): findOne
with the visibility condition for non-admins, then a fire-and-forget
view increment on the store. -/
def getProjectById (verify : String → Option Nat) (st : Store)
    (req : Request) (id : Nat) : ProjGetResult × Store :=
  let user? := optionalAuth verify st req
  match st.projects.find?
      (fun pr => pr.id == id && (isAdminUser user? || pr.isVisible)) with
  | none => ({status := 404, success := false, project := none}, st)
  | some pr =>
    let projects := st.projects.map
      (fun x => if x.id == id then {x with views := x.views + 1} else x)
    ({status := 200, success := true, project := some pr},
     {st with projects := projects})

/-- The persisted effect of project.isVisible = !project.isVisible
followed by save (part_000 lines 409-410), on the project with the
given id. -/
def flipProjVisibility (id : Nat) (x : Project) : Project :=
  if x.id == id then {x with isVisible := !x.isVisible} else x

/-- PUT /api/projects/:id/visibility handler core (part_000 lines
398-424): flip isVisible on the found project and save it. -/
def toggleProjectVisibility (st : Store) (id : Nat) : Response × Store :=
  match st.projects.find? (fun pr => pr.id == id) with
  | none => ({status := 404, success := false,
              message := "Project not found"}, st)
  | some pr =>
    let projects := st.projects.map (flipProjVisibility id)
    ({status := 200, success := true,
      message := if !pr.isVisible then "Project shown successfully"
                 else "Project hidden successfully"},
     {st with projects := projects})

/-- The like-toggle core of POST /api/projects/:id/like (part_000 lines
475-488): findIndex on the principal id, splice out the existing like
or push a new one. -/
def toggleLike (likes : List Like) (uid : Nat) (ts : Nat) : List Like :=
  match likes.findIdx? (fun l => l.userId == uid) with
  | some i => likes.eraseIdx i
  | none => likes ++ [{userId := uid, timestamp := ts}]

/-- The number of like entries a principal holds on a likes array. -/
def likeCount (likes : List Like) (uid : Nat) : Nat :=
  (likes.filter (fun l => l.userId == uid)).length

/-- N sequential invocations of the like toggle by the same principal,
with a timestamp source per invocation. -/
def iterateToggle (likes : List Like) (uid : Nat) (ts : Nat → Nat) :
    Nat → List Like
  | 0 => likes
  | n + 1 => toggleLike (iterateToggle likes uid ts n) uid (ts n)

/-- POST /api/projects/:id/like handler (part_000 lines 464-507): find
the project, toggle the like of the calling principal, save. -/
def likeProject (st : Store) (p : Principal) (id : Nat) (now : Nat) :
    Response × Store :=
  match st.projects.find? (fun pr => pr.id == id) with
  | none => ({status := 404, success := false,
              message := "Project not found"}, st)
  | some pr =>
    let liked := (pr.likes.findIdx? (fun l => l.userId == p.id)).isSome
    let projects := st.projects.map
      (fun x => if x.id == id then {x with likes := toggleLike x.likes p.id now}
                else x)
    ({status := 200, success := true,
      message := if liked then "Project unliked" else "Project liked"},
     {st with projects := projects})

/-! ## Contact routes (src/unnamed/part_001 lines 1-352) -/

/-- One entry of the errors array of a 400 validation response
(express-validator errors.array()): offending field path and message. -/
structure FieldError where
  path : String
  msg : String
deriving DecidableEq, Repr

/-- The character class trimmed by the JS trim sanitizer. -/
def isJsSpace (c : Char) : Bool :=
  c == ' ' || c == '\t' || c == '\n' || c == '\r'

/-- The JS trim sanitizer, evaluated on the character list. -/
def jsTrim (s : String) : String :=
  ⟨((s.data.dropWhile isJsSpace).reverse.dropWhile isJsSpace).reverse⟩

/-- isLength on a trimmed value: lower and upper bound on length. -/
def strLenBetween (s : String) (lo hi : Nat) : Bool :=
  lo ≤ s.length && s.length ≤ hi

/-- Split a character list at every occurrence of the separator. -/
def splitChar (c : Char) (l : List Char) : List (List Char) :=
  match l with
  | [] => [[]]
  | x :: xs =>
    let rest := splitChar c xs
    if x == c then [] :: rest
    else
      match rest with
      | [] => [[x]]
      | r :: rs => (x :: r) :: rs

/-- Modelled from the spec: the email format check body(email).isEmail()
comes from the validator library, which is not under src; the spec only
says the email field gets a format error.  Simplified format: one at
sign separating a nonempty local part from a domain that has at least
two nonempty dot-separated labels. -/
def isEmailLike (s : String) : Bool :=
  match splitChar '@' s.data with
  | [lp, dom] =>
    !lp.isEmpty && !dom.isEmpty &&
    (let labels := splitChar '.' dom
     decide (2 ≤ labels.length) && labels.all (fun seg => !seg.isEmpty))
  | _ => false

/-- The validator chain of POST /api/contact (part_001 lines 23-44), in
declaration order: name 2-100 chars, email format, subject 5-200 chars,
message 10-1000 chars, optional phone at most 20 chars. -/
def contactValidationErrors (name email subject message : String)
    (phone : Option String) : List FieldError :=
  (if strLenBetween (jsTrim name) 2 100 then []
   else [{path := "name", msg := "Name must be between 2 and 100 characters"}]) ++
  (if isEmailLike email then []
   else [{path := "email", msg := "Please provide a valid email"}]) ++
  (if strLenBetween (jsTrim subject) 5 200 then []
   else [{path := "subject", msg := "Subject must be between 5 and 200 characters"}]) ++
  (if strLenBetween (jsTrim message) 10 1000 then []
   else [{path := "message", msg := "Message must be between 10 and 1000 characters"}]) ++
  (match phone with
   | some ph =>
     if (jsTrim ph).length ≤ 20 then []
     else [{path := "phone", msg := "Phone number cannot exceed 20 characters"}]
   | none => [])

/-- Response of POST /api/contact. -/
structure ContactSubmitResult where
  status : Nat
  success : Bool
  message : String
  errors : List FieldError
deriving DecidableEq, Repr

/-- POST /api/contact handler (part_001 lines 23-91): 400 with the
validation errors when any validator fails, otherwise save the
submission and answer 201. -/
def submitContact (st : Store) (newId now : Nat)
    (name email subject message : String) (phone : Option String)
    (ip : String) : ContactSubmitResult × Store :=
  let errs := contactValidationErrors name email subject message phone
  if errs.isEmpty then
    let contact : Contact :=
      {id := newId, name := jsTrim name, email := email,
       subject := jsTrim subject, message := jsTrim message,
       phone := phone.map jsTrim, status := "new",
       priority := "medium", ipAddress := ip, createdAt := now}
    ({status := 201, success := true,
      message := "Your message has been sent successfully! I will get back to you soon.",
      errors := []},
     {st with contacts := st.contacts ++ [contact]})
  else
    ({status := 400, success := false, message := "Validation failed",
      errors := errs}, st)

/-- Query parameters of GET /api/contact (part_001 lines 100-108). -/
structure ContactListParams where
  page? : Option Nat := none
  limit? : Option Nat := none
  status? : Option String := none
  priority? : Option String := none
  search? : Option String := none
  sortBy : String := "createdAt"
  sortOrder : String := "desc"
deriving Repr

/-- The Mongo query of GET /api/contact (part_001 lines 111-122):
status, priority and search filters. -/
def contactMatches (p : ContactListParams) (c : Contact) : Bool :=
  (match p.status? with | some s => c.status == s | none => true) &&
  (match p.priority? with | some s => c.priority == s | none => true) &&
  (match p.search? with
   | some s => strContains c.name s || strContains c.email s ||
               strContains c.subject s || strContains c.message s
   | none => true)

/-- Sortable field access for Contact (sortBy query parameter). -/
def contactSortKey (field : String) (c : Contact) : Int :=
  if field == "createdAt" then (c.createdAt : Int) else 0

/-- The Mongo sort of GET /api/contact (part_001 lines 126-127). -/
def contactLe (sortBy sortDir : String) (a b : Contact) : Bool :=
  if sortDir == "desc" then decide (contactSortKey sortBy b ≤ contactSortKey sortBy a)
  else decide (contactSortKey sortBy a ≤ contactSortKey sortBy b)

/-- Response of GET /api/contact. -/
structure ContactListResult where
  status : Nat
  success : Bool
  contacts : List Contact
  pagination : Pagination
deriving Repr

/-- GET /api/contact handler (part_001 lines 98-166): page 1 and limit
10 by default, filtered find with skip/limit, count in parallel. -/
def getContacts (st : Store) (p : ContactListParams) : ContactListResult :=
  let page := p.page?.getD 1
  let limit := p.limit?.getD 10
  let skip := (page - 1) * limit
  let matching := st.contacts.filter (contactMatches p)
  let pageItems :=
    ((matching.mergeSort (contactLe p.sortBy p.sortOrder)).drop skip).take limit
  {status := 200, success := true, contacts := pageItems,
   pagination := mkPagination matching.length page limit}

/-! ## User routes (src/unnamed/part_001 lines 352-686) -/

/-- The full serialized user document. -/
def userDoc (u : User) : List (String × String) :=
  [("_id", toString u.id), ("name", u.name), ("email", u.email),
   ("password", u.password), ("role", u.role),
   ("isActive", if u.isActive then "true" else "false"),
   ("createdAt", toString u.createdAt)]

/-- Mongoose select(minus-password): the document without the password
path. -/
def selectNoPassword (doc : List (String × String)) :
    List (String × String) :=
  doc.filter (fun kv => !(kv.1 == "password"))

/-- The serialized form of the principal attached by protect, which was
loaded with select(minus-password). -/
def principalDoc (p : Principal) : List (String × String) :=
  [("_id", toString p.id), ("name", p.name), ("email", p.email),
   ("role", p.role),
   ("isActive", if p.isActive then "true" else "false")]

/-- Query parameters of GET /api/user/all (part_001 lines 375-383). -/
structure UserListParams where
  page? : Option Nat := none
  limit? : Option Nat := none
  search? : Option String := none
  role? : Option String := none
  isActive? : Option String := none
  sortBy : String := "createdAt"
  sortOrder : String := "desc"
deriving Repr

/-- The Mongo query of GET /api/user/all (part_001 lines 386-395):
role, isActive and search filters. -/
def userMatches (p : UserListParams) (u : User) : Bool :=
  (match p.role? with | some r => u.role == r | none => true) &&
  (match p.isActive? with
   | some s => u.isActive == (s == "true")
   | none => true) &&
  (match p.search? with
   | some s => strContains u.name s || strContains u.email s
   | none => true)

/-- Sortable field access for User (sortBy query parameter). -/
def userSortKey (field : String) (u : User) : Int :=
  if field == "createdAt" then (u.createdAt : Int) else 0

/-- The Mongo sort of GET /api/user/all (part_001 lines 399-400). -/
def userLe (sortBy sortDir : String) (a b : User) : Bool :=
  if sortDir == "desc" then decide (userSortKey sortBy b ≤ userSortKey sortBy a)
  else decide (userSortKey sortBy a ≤ userSortKey sortBy b)

/-- Response of GET /api/user/all: serialized user documents plus
pagination. -/
structure UserListResult where
  status : Nat
  success : Bool
  users : List (List (String × String))
  pagination : Pagination
deriving Repr

/-- GET /api/user/all handler (part_001 lines 373-439): filtered find
with skip/limit and select(minus-password), count in parallel. -/
def getAllUsers (st : Store) (p : UserListParams) : UserListResult :=
  let page := p.page?.getD 1
  let limit := p.limit?.getD 20
  let skip := (page - 1) * limit
  let matching := st.users.filter (userMatches p)
  let pageItems :=
    ((matching.mergeSort (userLe p.sortBy p.sortOrder)).drop skip).take limit
  {status := 200, success := true,
   users := pageItems.map (fun u => selectNoPassword (userDoc u)),
   pagination := mkPagination matching.length page limit}

/-- Response of the single-user routes: optional serialized user. -/
structure UserResult where
  status : Nat
  success : Bool
  message : String
  user : Option (List (String × String))
deriving DecidableEq, Repr

/-- GET /api/user/:id handler (part_001 lines 446-468): findById with
select(minus-password). -/
def getUserById (st : Store) (id : Nat) : UserResult :=
  match st.users.find? (fun u => u.id == id) with
  | none => {status := 404, success := false, message := "User not found",
             user := none}
  | some u => {status := 200, success := true, message := "",
               user := some (selectNoPassword (userDoc u))}

/-- PUT /api/user/:id/role handler (part_001 lines 475-525): validate
the role, reject self-demotion with 400, otherwise findByIdAndUpdate
with select(minus-password). -/
def updateUserRole (st : Store) (p : Principal) (targetId : Nat)
    (role : String) : UserResult × Store :=
  if !(role == "user" || role == "admin") then
    ({status := 400, success := false, message := "Validation failed",
      user := none}, st)
  else if targetId == p.id && role == "user" then
    ({status := 400, success := false,
      message := "You cannot demote yourself from admin role",
      user := none}, st)
  else
    match st.users.find? (fun u => u.id == targetId) with
    | none => ({status := 404, success := false,
                message := "User not found", user := none}, st)
    | some u =>
      let users := st.users.map
        (fun x => if x.id == targetId then {x with role := role} else x)
      ({status := 200, success := true,
        message := "User role updated successfully",
        user := some (selectNoPassword (userDoc {u with role := role}))},
       {st with users := users})

/-- PUT /api/user/:id/status handler (part_001 lines 532-582): validate
isActive, reject self-deactivation with 400, otherwise
findByIdAndUpdate with select(minus-password). -/
def updateUserStatus (st : Store) (p : Principal) (targetId : Nat)
    (isActive : Bool) : UserResult × Store :=
  if targetId == p.id && !isActive then
    ({status := 400, success := false,
      message := "You cannot deactivate your own account",
      user := none}, st)
  else
    match st.users.find? (fun u => u.id == targetId) with
    | none => ({status := 404, success := false,
                message := "User not found", user := none}, st)
    | some u =>
      let users := st.users.map
        (fun x => if x.id == targetId then {x with isActive := isActive} else x)
      ({status := 200, success := true,
        message := if isActive then "User activated successfully"
                   else "User deactivated successfully",
        user := some (selectNoPassword (userDoc {u with isActive := isActive}))},
       {st with users := users})

/-- DELETE /api/user/:id handler (part_001 lines 589-619): reject
self-deletion with 400, otherwise findByIdAndDelete. -/
def deleteUser (st : Store) (p : Principal) (targetId : Nat) :
    UserResult × Store :=
  if targetId == p.id then
    ({status := 400, success := false,
      message := "You cannot delete your own account",
      user := none}, st)
  else
    match st.users.find? (fun u => u.id == targetId) with
    | none => ({status := 404, success := false,
                message := "User not found", user := none}, st)
    | some _ =>
      let users := st.users.filter (fun u => !(u.id == targetId))
      ({status := 200, success := true,
        message := "User deleted successfully", user := none},
       {st with users := users})

/-! ## Education admin list (education.js lines 332-390) -/

/-- Query parameters of GET /api/education/admin/all (education.js
lines 334-342). -/
structure EduAdminParams where
  page? : Option Nat := none
  limit? : Option Nat := none
  type? : Option String := none
  isVisible? : Option String := none
  search? : Option String := none
  sortBy : String := "createdAt"
  sortOrder : String := "desc"
deriving Repr

/-- The Mongo query of GET /api/education/admin/all (education.js lines
345-355): type, isVisible and search filters, no visibility default. -/
def eduAdminMatches (p : EduAdminParams) (e : EducationRec) : Bool :=
  (match p.type? with | some t => e.type == t | none => true) &&
  (match p.isVisible? with
   | some s => e.isVisible == (s == "true")
   | none => true) &&
  (match p.search? with
   | some s => strContains e.institution s || strContains e.degree s ||
               strContains e.fieldOfStudy s
   | none => true)

/-- Response of GET /api/education/admin/all. -/
structure EduAdminResult where
  status : Nat
  success : Bool
  education : List EducationRec
  pagination : Pagination
deriving Repr

/-- GET /api/education/admin/all handler (education.js lines 332-390):
page 1 and limit 20 by default, filtered find with skip/limit, count in
parallel. -/
def getEducationAdminList (st : Store) (p : EduAdminParams) :
    EduAdminResult :=
  let page := p.page?.getD 1
  let limit := p.limit?.getD 20
  let skip := (page - 1) * limit
  let matching := st.educations.filter (eduAdminMatches p)
  let pageItems :=
    ((matching.mergeSort
        (fun a b => eduLe p.sortBy p.sortOrder a b)).drop skip).take limit
  {status := 200, success := true, education := pageItems,
   pagination := mkPagination matching.length page limit}

/-! ## Sample data -/

/-- A stored admin user. -/
def sampleAdmin : User :=
  {id := 1, name := "Sanya", email := "admin@example.com",
   password := "hashedsecret", role := "admin", isActive := true,
   createdAt := 100}

/-- A stored regular user. -/
def sampleMember : User :=
  {id := 2, name := "Visitor", email := "visitor@example.com",
   password := "hashedother", role := "user", isActive := true,
   createdAt := 101}

/-- The principal of the sample admin. -/
def sampleAdminPrincipal : Principal := toPrincipal sampleAdmin

/-- A visible education record. -/
def sampleEdu : EducationRec :=
  {id := 10, institution := "Centennial College", degree := "Diploma",
   fieldOfStudy := "Software Engineering", startDate := 50,
   endDate := none, type := "formal", isVisible := true, sortOrder := 0,
   createdBy := 1, createdAt := 60}

/-- A hidden education record. -/
def sampleHiddenEdu : EducationRec :=
  {id := 11, institution := "Hidden School", degree := "Certificate",
   fieldOfStudy := "Security", startDate := 40, endDate := some 45,
   type := "certification", isVisible := false, sortOrder := 1,
   createdBy := 1, createdAt := 61}

/-- A visible project with no likes. -/
def sampleProject : Project :=
  {id := 7, title := "Portfolio Website", description := "A personal portfolio",
   category := "web-development", status := "completed",
   technologies := ["react"], tags := ["web"], startDate := 30,
   isFeatured := true, isVisible := true, sortOrder := 0, views := 0,
   likes := [], createdBy := 1, createdAt := 70}

/-- A hidden project. -/
def sampleHiddenProject : Project :=
  {id := 8, title := "Secret Project", description := "Not shown publicly",
   category := "other", status := "in-progress", technologies := ["node"],
   tags := [], startDate := 31, isFeatured := false, isVisible := false,
   sortOrder := 1, views := 3, likes := [], createdBy := 1,
   createdAt := 71}

/-- A sample store holding the records above. -/
def sampleStore : Store :=
  {users := [sampleAdmin, sampleMember],
   projects := [sampleProject, sampleHiddenProject],
   educations := [sampleEdu, sampleHiddenEdu],
   contacts := []}

/-- A request carrying no credentials. -/
def noTokenReq : Request := {cookieToken := none, authHeader := none}

/-- A request carrying a cookie token that no longer verifies. -/
def staleTokenReq : Request :=
  {cookieToken := some "staletoken", authHeader := none}

/-- A request carrying both a cookie token and a bearer header. -/
def bothTokenReq : Request :=
  {cookieToken := some "cookietok", authHeader := some "Bearer headertok"}

/-- The same cookie token with a different bearer header. -/
def bothTokenReqAlt : Request :=
  {cookieToken := some "cookietok", authHeader := some "Bearer othertok"}

/-- A request carrying only a bearer header. -/
def headerOnlyReq : Request :=
  {cookieToken := none, authHeader := some "Bearer headertok"}

/-- A verifier on which every token fails (expired or malformed). -/
def rejectAllTokens : String → Option Nat := fun _ => none

/-- A handler that answers 200 and leaves the store alone. -/
def okHandler : Principal → Store → Response × Store :=
  fun _ st => ({status := 200, success := true, message := ""}, st)

/-! ## General lemmas -/

/-- Membership in a filtered, sorted, skipped and limited page implies
the filter predicate. -/
theorem filterProp_of_mem_page {α : Type} (q : α → Bool) (le : α → α → Bool)
    (l : List α) (s k : Nat) (x : α)
    (hx : x ∈ (((l.filter q).mergeSort le).drop s).take k) : q x = true := by
  have h1 := List.mem_of_mem_take hx
  have h2 := List.mem_of_mem_drop h1
  have h3 := List.mem_mergeSort.mp h2
  exact (List.mem_filter.mp h3).2

/-- Membership in a filtered, sorted and limited list implies the
filter predicate. -/
theorem filterProp_of_mem_limited {α : Type} (q : α → Bool)
    (le : α → α → Bool) (l : List α) (k : Nat) (x : α)
    (hx : x ∈ ((l.filter q).mergeSort le).take k) : q x = true := by
  have h1 := List.mem_of_mem_take hx
  have h2 := List.mem_mergeSort.mp h1
  exact (List.mem_filter.mp h2).2

/-- A document stripped by select(minus-password) has no password key. -/
theorem selectNoPassword_no_key (doc : List (String × String)) :
    (selectNoPassword doc).all (fun kv => !(kv.1 == "password")) = true := by
  rw [List.all_eq_true]
  intro kv hkv
  exact (List.mem_filter.mp hkv).2

/-! ## Claim theorems -/

/-- C2: for every request to a route guarded by protect that carries no
token, or a token failing verification, or a token whose principal is
not found or inactive, the response status is 401 and the store is
unchanged (the handler never runs). -/
theorem protectFailureGives401AndNoMutation
    (verify : String → Option Nat)
    (handler : Principal → Store → Response × Store)
    (st : Store) (req : Request)
    (h : extractToken req = none ∨ extractToken req = some "" ∨
         ∃ t, extractToken req = some t ∧ t ≠ "" ∧
           (verify t = none ∨
            ∃ uid, verify t = some uid ∧
              (st.users.find? (fun u => u.id == uid) = none ∨
               ∃ u, st.users.find? (fun v => v.id == uid) = some u ∧
                 u.isActive = false))) :
    (runProtected verify handler st req).1.status = 401 ∧
    (runProtected verify handler st req).2 = st := by
  unfold runProtected protect
  rcases h with h | h | ⟨t, ht, hne, h⟩
  · rw [h]; exact ⟨rfl, rfl⟩
  · rw [h]; simp
  · rw [ht]
    have hbe : (t == "") = false := by
      simpa using hne
    rcases h with h | ⟨uid, huid, h⟩
    · simp [hbe, h]
    · rcases h with h | ⟨u, hu, hact⟩
      · simp [hbe, huid, h]
      · simp [hbe, huid, hu, hact]

/-- C2 witness: a tokenless request to a protected route gets 401 and
leaves the sample store untouched. -/
theorem protectFailureGives401AndNoMutation_witness :
    (runProtected rejectAllTokens okHandler sampleStore noTokenReq).1.status = 401 ∧
    (runProtected rejectAllTokens okHandler sampleStore noTokenReq).2 = sampleStore :=
  protectFailureGives401AndNoMutation rejectAllTokens okHandler sampleStore
    noTokenReq (Or.inl rfl)

/-- C3: an admin principal asking to demote itself, deactivate itself
or delete its own account gets 400 and the store is unchanged. -/
theorem adminSelfActionRejected (st : Store) (p : Principal)
    (hadmin : p.role = "admin") :
    ((updateUserRole st p p.id "user").1.status = 400 ∧
     (updateUserRole st p p.id "user").2 = st) ∧
    ((updateUserStatus st p p.id false).1.status = 400 ∧
     (updateUserStatus st p p.id false).2 = st) ∧
    ((deleteUser st p p.id).1.status = 400 ∧
     (deleteUser st p p.id).2 = st) := by
  unfold updateUserRole updateUserStatus deleteUser
  simp

/-- C3 witness: the sample admin attempting the three self-actions. -/
theorem adminSelfActionRejected_witness :
    ((updateUserRole sampleStore sampleAdminPrincipal sampleAdminPrincipal.id "user").1.status = 400 ∧
     (updateUserRole sampleStore sampleAdminPrincipal sampleAdminPrincipal.id "user").2 = sampleStore) ∧
    ((updateUserStatus sampleStore sampleAdminPrincipal sampleAdminPrincipal.id false).1.status = 400 ∧
     (updateUserStatus sampleStore sampleAdminPrincipal sampleAdminPrincipal.id false).2 = sampleStore) ∧
    ((deleteUser sampleStore sampleAdminPrincipal sampleAdminPrincipal.id).1.status = 400 ∧
     (deleteUser sampleStore sampleAdminPrincipal sampleAdminPrincipal.id).2 = sampleStore) :=
  adminSelfActionRejected sampleStore sampleAdminPrincipal rfl

/-- C5: toggling visibility once negates the isVisible field of the
targeted record and toggling twice restores the whole store, for both
Education and Project. -/
theorem visibilityToggleInvolution (st : Store) (eid pid : Nat)
    (e : EducationRec) (pr : Project)
    (he : st.educations.find? (fun x => x.id == eid) = some e)
    (hp : st.projects.find? (fun x => x.id == pid) = some pr) :
    ((toggleEducationVisibility st eid).2.educations.find?
        (fun x => x.id == eid) = some {e with isVisible := !e.isVisible}) ∧
    (toggleEducationVisibility (toggleEducationVisibility st eid).2 eid).2 = st ∧
    ((toggleProjectVisibility st pid).2.projects.find?
        (fun x => x.id == pid) = some {pr with isVisible := !pr.isVisible}) ∧
    (toggleProjectVisibility (toggleProjectVisibility st pid).2 pid).2 = st := by
  have hpe := List.find?_some he
  have hpp := List.find?_some hp
  have hide : ∀ x : EducationRec, ((flipEduVisibility eid x).id == eid) = (x.id == eid) := by
    intro x
    unfold flipEduVisibility
    by_cases hx : x.id == eid
    · rw [if_pos hx]
    · rw [if_neg hx]
  have hidp : ∀ x : Project, ((flipProjVisibility pid x).id == pid) = (x.id == pid) := by
    intro x
    unfold flipProjVisibility
    by_cases hx : x.id == pid
    · rw [if_pos hx]
    · rw [if_neg hx]
  have hmape : (st.educations.map (flipEduVisibility eid)).find?
      (fun x => x.id == eid) = some {e with isVisible := !e.isVisible} := by
    rw [List.find?_map]
    have hcomp : ((fun y : EducationRec => y.id == eid) ∘ flipEduVisibility eid) =
        (fun y : EducationRec => y.id == eid) := by
      funext x
      exact hide x
    rw [hcomp, he, Option.map_some']
    rw [show flipEduVisibility eid e = {e with isVisible := !e.isVisible} by
      unfold flipEduVisibility; rw [if_pos hpe]]
  have hmapp : (st.projects.map (flipProjVisibility pid)).find?
      (fun x => x.id == pid) = some {pr with isVisible := !pr.isVisible} := by
    rw [List.find?_map]
    have hcomp : ((fun y : Project => y.id == pid) ∘ flipProjVisibility pid) =
        (fun y : Project => y.id == pid) := by
      funext x
      exact hidp x
    rw [hcomp, hp, Option.map_some']
    rw [show flipProjVisibility pid pr = {pr with isVisible := !pr.isVisible} by
      unfold flipProjVisibility; rw [if_pos hpp]]
  have hinve : (flipEduVisibility eid ∘ flipEduVisibility eid) = id := by
    funext x
    cases x with
    | mk i inst deg fos sd ed ty vis so cb ca =>
      by_cases hx : i == eid <;> simp [Function.comp, flipEduVisibility, hx]
  have hinvp : (flipProjVisibility pid ∘ flipProjVisibility pid) = id := by
    funext x
    cases x with
    | mk i ti de ca stt te tg sd fe vis so vw lk cb cr =>
      by_cases hx : i == pid <;> simp [Function.comp, flipProjVisibility, hx]
  have hstepe : (toggleEducationVisibility st eid).2 =
      {st with educations := st.educations.map (flipEduVisibility eid)} := by
    unfold toggleEducationVisibility
    rw [he]
  have hstepp : (toggleProjectVisibility st pid).2 =
      {st with projects := st.projects.map (flipProjVisibility pid)} := by
    unfold toggleProjectVisibility
    rw [hp]
  refine ⟨?_, ?_, ?_, ?_⟩
  · rw [hstepe]
    exact hmape
  · rw [hstepe]
    unfold toggleEducationVisibility
    have hscrut : ({st with educations := st.educations.map (flipEduVisibility eid)} :
        Store).educations.find? (fun x => x.id == eid) =
        some {e with isVisible := !e.isVisible} := hmape
    rw [hscrut]
    show ({st with educations :=
        (st.educations.map (flipEduVisibility eid)).map (flipEduVisibility eid)} :
        Store) = st
    rw [List.map_map, hinve, List.map_id]
  · rw [hstepp]
    exact hmapp
  · rw [hstepp]
    unfold toggleProjectVisibility
    have hscrut : ({st with projects := st.projects.map (flipProjVisibility pid)} :
        Store).projects.find? (fun x => x.id == pid) =
        some {pr with isVisible := !pr.isVisible} := hmapp
    rw [hscrut]
    show ({st with projects :=
        (st.projects.map (flipProjVisibility pid)).map (flipProjVisibility pid)} :
        Store) = st
    rw [List.map_map, hinvp, List.map_id]

/-- C5 witness: toggling the sample education record and project. -/
theorem visibilityToggleInvolution_witness :
    ((toggleEducationVisibility sampleStore 10).2.educations.find?
        (fun x => x.id == 10) =
      some {sampleEdu with isVisible := !sampleEdu.isVisible}) ∧
    (toggleEducationVisibility (toggleEducationVisibility sampleStore 10).2 10).2 =
      sampleStore ∧
    ((toggleProjectVisibility sampleStore 7).2.projects.find?
        (fun x => x.id == 7) =
      some {sampleProject with isVisible := !sampleProject.isVisible}) ∧
    (toggleProjectVisibility (toggleProjectVisibility sampleStore 7).2 7).2 =
      sampleStore :=
  visibilityToggleInvolution sampleStore 10 7 sampleEdu sampleProject rfl rfl

/-- C7: both middlewares take the cookie token when it is present and
nonempty, ignoring the Authorization header entirely, and fall back to
the bearer header only when the cookie token is absent or falsy. -/
theorem cookieTokenPrecedence (verify : String → Option Nat) (st : Store)
    (c : String) (h1 h2 : Option String) (req : Request) (hc : c ≠ "") :
    extractToken {cookieToken := some c, authHeader := h1} = some c ∧
    protect verify st {cookieToken := some c, authHeader := h1} =
      protect verify st {cookieToken := some c, authHeader := h2} ∧
    optionalAuth verify st {cookieToken := some c, authHeader := h1} =
      optionalAuth verify st {cookieToken := some c, authHeader := h2} ∧
    (truthy req.cookieToken = false →
      extractToken req = headerBearerToken req) := by
  have he : ∀ h : Option String,
      extractToken {cookieToken := some c, authHeader := h} = some c := by
    intro h
    unfold extractToken truthy
    simp [hc]
  refine ⟨he h1, ?_, ?_, ?_⟩
  · unfold protect
    rw [he h1, he h2]
  · unfold optionalAuth
    rw [he h1, he h2]
  · intro ht
    unfold extractToken
    rw [ht]
    simp

/-- C7 witness: with both credentials present the cookie token wins;
with no cookie the header token is used. -/
theorem cookieTokenPrecedence_witness :
    extractToken bothTokenReq = some "cookietok" ∧
    protect rejectAllTokens sampleStore bothTokenReq =
      protect rejectAllTokens sampleStore bothTokenReqAlt ∧
    extractToken headerOnlyReq = headerBearerToken headerOnlyReq := by
  have h := cookieTokenPrecedence rejectAllTokens sampleStore "cookietok"
    (some "Bearer headertok") (some "Bearer othertok") headerOnlyReq
    (by decide)
  exact ⟨h.1, h.2.1, h.2.2.2 rfl⟩

/-- C6 counterexample: a request whose token fails verification is NOT
rejected by optionalAuth: the education list request completes with
status 200 and no principal attached, while the claim asserts both
middlewares reject it. -/
theorem optionalAuthRejectionCounterexample :
    optionalAuth rejectAllTokens sampleStore staleTokenReq = none ∧
    (getEducationList rejectAllTokens sampleStore staleTokenReq {}).1.status = 200 ∧
    ¬ (getEducationList rejectAllTokens sampleStore staleTokenReq {}).1.status = 401 := by
  refine ⟨rfl, rfl, ?_⟩
  intro h
  exact absurd h (by decide)

/-- C6 amended: a token failing verification makes protect reject with
the one collapsed 401 message (identical for expired and malformed
tokens), while optionalAuth fails closed only by attaching no
principal and lets the request continue. -/
theorem verificationFailureFailsClosed
    (verify : String → Option Nat) (st : Store) (req : Request) (t : String)
    (h1 : extractToken req = some t) (h2 : t ≠ "") (h3 : verify t = none) :
    protect verify st req = .err 401 "Token is invalid or expired." ∧
    optionalAuth verify st req = none := by
  have hbe : (t == "") = false := by
    simpa using h2
  constructor
  · unfold protect
    rw [h1]
    simp [hbe, h3]
  · unfold optionalAuth
    rw [h1]
    simp [hbe, h3]

/-- C6 amended witness: the stale-token request under a verifier that
rejects every token. -/
theorem verificationFailureFailsClosed_witness :
    protect rejectAllTokens sampleStore staleTokenReq =
      .err 401 "Token is invalid or expired." ∧
    optionalAuth rejectAllTokens sampleStore staleTokenReq = none :=
  verificationFailureFailsClosed rejectAllTokens sampleStore staleTokenReq
    "staletoken" rfl (by decide) rfl

/-- Counting like entries distributes over cons. -/
theorem likeCount_cons (a : Like) (l : List Like) (uid : Nat) :
    likeCount (a :: l) uid =
      (if a.userId == uid then 1 else 0) + likeCount l uid := by
  unfold likeCount
  rw [List.filter_cons]
  by_cases h : a.userId == uid
  · rw [if_pos h, if_pos h, List.length_cons]
    omega
  · rw [if_neg h, if_neg h]
    omega

/-- Counting like entries distributes over append. -/
theorem likeCount_append (l1 l2 : List Like) (uid : Nat) :
    likeCount (l1 ++ l2) uid = likeCount l1 uid + likeCount l2 uid := by
  unfold likeCount
  rw [List.filter_append, List.length_append]

/-- A principal has no like entry exactly when findIndex misses. -/
theorem likeCount_eq_zero_iff (l : List Like) (uid : Nat) :
    likeCount l uid = 0 ↔
      l.findIdx? (fun k => k.userId == uid) = none := by
  rw [List.findIdx?_eq_none_iff]
  unfold likeCount
  rw [List.length_eq_zero, List.filter_eq_nil_iff]
  constructor
  · intro h x hx
    simpa using h x hx
  · intro h x hx
    simpa using h x hx

/-- findIndex over a list with one matching element appended at the
end, none matching before. -/
theorem findIdx?_append_matching_end {α : Type} (p : α → Bool) (l : List α)
    (x : α) (hl : l.findIdx? p = none) (hx : p x = true) :
    (l ++ [x]).findIdx? p = some l.length := by
  induction l with
  | nil => simp [List.findIdx?_cons, hx]
  | cons a t ih =>
    rw [List.findIdx?_cons] at hl
    rw [List.cons_append, List.findIdx?_cons]
    by_cases hpa : p a
    · rw [if_pos hpa] at hl
      simp at hl
    · rw [if_neg hpa] at hl ⊢
      rw [List.findIdx?_succ] at hl
      rw [List.findIdx?_succ]
      have ht : t.findIdx? p = none := by
        cases hfi : t.findIdx? p
        · rfl
        · rw [hfi] at hl
          simp at hl
      rw [ih ht]
      simp [List.length_cons]

/-- Splicing out the element appended at the end restores the list. -/
theorem eraseIdx_append_singleton {α : Type} (l : List α) (x : α) :
    (l ++ [x]).eraseIdx l.length = l := by
  induction l with
  | nil => rfl
  | cons a t ih =>
    rw [List.cons_append, List.length_cons, List.eraseIdx_cons_succ, ih]

/-- A like toggle by a principal with no existing like appends one. -/
theorem toggleLike_of_no_like (likes : List Like) (uid ts : Nat)
    (h : likeCount likes uid = 0) :
    toggleLike likes uid ts = likes ++ [{userId := uid, timestamp := ts}] := by
  unfold toggleLike
  rw [(likeCount_eq_zero_iff likes uid).mp h]

/-- Two like toggles by a principal with no existing like restore the
likes array exactly. -/
theorem toggleLike_twice (likes : List Like) (uid t1 t2 : Nat)
    (h : likeCount likes uid = 0) :
    toggleLike (toggleLike likes uid t1) uid t2 = likes := by
  rw [toggleLike_of_no_like likes uid t1 h]
  unfold toggleLike
  rw [findIdx?_append_matching_end _ likes _
    ((likeCount_eq_zero_iff likes uid).mp h) (by simp)]
  exact eraseIdx_append_singleton likes _

/-- One like toggle adds an entry when the principal has none and
removes exactly one when it has some. -/
theorem likeCount_toggle (likes : List Like) (uid ts : Nat) :
    likeCount (toggleLike likes uid ts) uid =
      if likeCount likes uid = 0 then 1 else likeCount likes uid - 1 := by
  induction likes with
  | nil =>
    rw [toggleLike_of_no_like [] uid ts rfl]
    simp [likeCount_cons, likeCount]
  | cons a t ih =>
    by_cases hpa : a.userId == uid
    · have hstep : toggleLike (a :: t) uid ts = t := by
        unfold toggleLike
        rw [List.findIdx?_cons, if_pos hpa]
        rfl
      rw [hstep, likeCount_cons, if_pos hpa]
      have hne : ¬(1 + likeCount t uid = 0) := by omega
      rw [if_neg hne]
      omega
    · cases hfi : t.findIdx? (fun k => k.userId == uid) with
      | none =>
        have hct : likeCount t uid = 0 := (likeCount_eq_zero_iff t uid).mpr hfi
        have hca : likeCount (a :: t) uid = 0 := by
          rw [likeCount_cons, if_neg hpa, hct]
        rw [toggleLike_of_no_like _ _ _ hca, likeCount_append, hca, if_pos rfl]
        simp [likeCount_cons, likeCount]
      | some i =>
        have hstep : toggleLike (a :: t) uid ts = a :: t.eraseIdx i := by
          unfold toggleLike
          rw [List.findIdx?_cons, if_neg hpa, List.findIdx?_succ, hfi]
          rfl
        have ht : toggleLike t uid ts = t.eraseIdx i := by
          unfold toggleLike
          rw [hfi]
        rw [hstep, likeCount_cons, if_neg hpa, ← ht, ih, likeCount_cons,
          if_neg hpa]
        simp

/-- C4: starting with no like by the calling principal, N invocations
of the like toggle leave that principal with N mod 2 like entries (so
re-invoking removes rather than duplicates), and two invocations
restore the original likes array. -/
theorem likeToggleContributionModTwo (likes : List Like) (uid : Nat)
    (ts : Nat → Nat) (n : Nat) (h : likeCount likes uid = 0) :
    likeCount (iterateToggle likes uid ts n) uid = n % 2 ∧
    iterateToggle likes uid ts 2 = likes := by
  constructor
  · induction n with
    | zero => simpa using h
    | succ k ih =>
      show likeCount (toggleLike (iterateToggle likes uid ts k) uid (ts k)) uid = _
      rw [likeCount_toggle, ih]
      rcases Nat.mod_two_eq_zero_or_one k with hk | hk
      · rw [hk, if_pos rfl]
        omega
      · rw [hk, if_neg (by omega)]
        omega
  · show toggleLike (toggleLike (iterateToggle likes uid ts 0) uid (ts 0)) uid (ts 1) = likes
    exact toggleLike_twice likes uid (ts 0) (ts 1) h

/-- C4 witness: five toggles on an empty likes array leave one entry,
and two toggles restore the empty array. -/
theorem likeToggleContributionModTwo_witness :
    likeCount (iterateToggle [] 2 (fun i => i) 5) 2 = 5 % 2 ∧
    iterateToggle [] 2 (fun i => i) 2 = [] :=
  likeToggleContributionModTwo [] 2 (fun i => i) 5 rfl

/-- Math.ceil(total / limit) on naturals agrees with the rational
ceiling for a positive limit. -/
theorem jsCeilDiv_eq_ceil (a b : Nat) (hb : 0 < b) :
    jsCeilDiv a b = ⌈(a : ℚ) / (b : ℚ)⌉₊ := by
  have hbq : (0 : ℚ) < (b : ℚ) := by exact_mod_cast hb
  refine eq_of_forall_ge_iff (fun n => ?_)
  rw [Nat.ceil_le, div_le_iff₀ hbq]
  have hcast : ((a : ℚ) ≤ (n : ℚ) * (b : ℚ)) ↔ a ≤ n * b := by
    exact_mod_cast Iff.rfl
  rw [hcast]
  unfold jsCeilDiv
  rw [Nat.div_le_iff_le_mul_add_pred hb, Nat.mul_comm b n]
  generalize n * b = k
  omega

/-- C8: every paginated list response satisfies
pages = ceil(total / limit) with total the count of matching records,
and the destructuring defaults are page 1 with limit 20 for the
Project, User and Education admin lists and limit 10 for the Contact
list. -/
theorem paginationPagesAndDefaults (verify : String → Option Nat)
    (st : Store) (req : Request) (pp : ProjListParams)
    (pc : ContactListParams) (pu : UserListParams) (pea : EduAdminParams)
    (hp : 0 < pp.limit?.getD 20) (hc : 0 < pc.limit?.getD 10)
    (hu : 0 < pu.limit?.getD 20) (hea : 0 < pea.limit?.getD 20) :
    ((getProjects verify st req pp).pagination.pages =
       ⌈((getProjects verify st req pp).pagination.total : ℚ) /
         ((getProjects verify st req pp).pagination.limit : ℚ)⌉₊ ∧
     (getProjects verify st req pp).pagination.total =
       (st.projects.filter
         (projMatches (optionalAuth verify st req) pp)).length ∧
     (getProjects verify st req {}).pagination.page = 1 ∧
     (getProjects verify st req {}).pagination.limit = 20) ∧
    ((getContacts st pc).pagination.pages =
       ⌈((getContacts st pc).pagination.total : ℚ) /
         ((getContacts st pc).pagination.limit : ℚ)⌉₊ ∧
     (getContacts st pc).pagination.total =
       (st.contacts.filter (contactMatches pc)).length ∧
     (getContacts st {}).pagination.page = 1 ∧
     (getContacts st {}).pagination.limit = 10) ∧
    ((getAllUsers st pu).pagination.pages =
       ⌈((getAllUsers st pu).pagination.total : ℚ) /
         ((getAllUsers st pu).pagination.limit : ℚ)⌉₊ ∧
     (getAllUsers st pu).pagination.total =
       (st.users.filter (userMatches pu)).length ∧
     (getAllUsers st {}).pagination.page = 1 ∧
     (getAllUsers st {}).pagination.limit = 20) ∧
    ((getEducationAdminList st pea).pagination.pages =
       ⌈((getEducationAdminList st pea).pagination.total : ℚ) /
         ((getEducationAdminList st pea).pagination.limit : ℚ)⌉₊ ∧
     (getEducationAdminList st pea).pagination.total =
       (st.educations.filter (eduAdminMatches pea)).length ∧
     (getEducationAdminList st {}).pagination.page = 1 ∧
     (getEducationAdminList st {}).pagination.limit = 20) := by
  refine ⟨⟨?_, rfl, rfl, rfl⟩, ⟨?_, rfl, rfl, rfl⟩,
    ⟨?_, rfl, rfl, rfl⟩, ⟨?_, rfl, rfl, rfl⟩⟩
  · exact jsCeilDiv_eq_ceil _ _ hp
  · exact jsCeilDiv_eq_ceil _ _ hc
  · exact jsCeilDiv_eq_ceil _ _ hu
  · exact jsCeilDiv_eq_ceil _ _ hea

/-- C8 witness: the default queries over the sample store. -/
theorem paginationPagesAndDefaults_witness :
    (getProjects rejectAllTokens sampleStore noTokenReq {}).pagination.pages =
      ⌈(((getProjects rejectAllTokens sampleStore noTokenReq {}).pagination.total : ℚ)) /
        (((getProjects rejectAllTokens sampleStore noTokenReq {}).pagination.limit : ℚ))⌉₊ ∧
    (getContacts sampleStore {}).pagination.limit = 10 ∧
    (getAllUsers sampleStore {}).pagination.page = 1 ∧
    (getEducationAdminList sampleStore {}).pagination.limit = 20 := by
  have h := paginationPagesAndDefaults rejectAllTokens sampleStore noTokenReq
    {} {} {} {} (by decide) (by decide) (by decide) (by decide)
  exact ⟨h.1.1, h.2.1.2.2.2, h.2.2.1.2.2.1, h.2.2.2.2.2.2⟩

/-- C1: list and get-by-id reads of Education and Project return only
isVisible records to non-admin callers, and for admin callers the
visibility filter is not applied: the query predicates are independent
of isVisible and get-by-id degenerates to a plain id lookup. -/
theorem nonAdminReadsOnlyVisible (verify : String → Option Nat)
    (st : Store) (req : Request) (pe : EduListParams)
    (pp : ProjListParams) (eid pid : Nat) (flim : Option Nat) (b : Bool)
    (u : Principal) (e : EducationRec) (pr : Project) :
    (isAdminUser (optionalAuth verify st req) = false →
      (getEducationList verify st req pe).2.all (fun x => x.isVisible) = true ∧
      ((getEducationById verify st req eid).2.all (fun x => x.isVisible)) = true ∧
      (getProjects verify st req pp).projects.all (fun x => x.isVisible) = true ∧
      (getFeaturedProjects verify st req flim).2.all (fun x => x.isVisible) = true ∧
      ((getProjectById verify st req pid).1.project.all (fun x => x.isVisible)) = true) ∧
    (u.role = "admin" →
      eduMatches (some u) pe.type? {e with isVisible := b} =
        eduMatches (some u) pe.type? e ∧
      projMatches (some u) pp {pr with isVisible := b} =
        projMatches (some u) pp pr) ∧
    (isAdminUser (optionalAuth verify st req) = true →
      (getEducationById verify st req eid).2 =
        st.educations.find? (fun x => x.id == eid) ∧
      (getProjectById verify st req pid).1.project =
        st.projects.find? (fun x => x.id == pid)) := by
  refine ⟨?_, ?_, ?_⟩
  · intro hna
    refine ⟨?_, ?_, ?_, ?_, ?_⟩
    · rw [List.all_eq_true]
      intro x hx
      have hq := filterProp_of_mem_limited
        (eduMatches (optionalAuth verify st req) pe.type?)
        (eduLe pe.sortBy pe.sortOrder) st.educations pe.limit x hx
      unfold eduMatches at hq
      rw [hna] at hq
      simp only [Bool.false_or, Bool.and_eq_true] at hq
      simpa using hq.1
    · unfold getEducationById
      dsimp only
      split
      · rfl
      · next x heq =>
        have hq := List.find?_some heq
        rw [hna] at hq
        simp only [Bool.false_or, Bool.and_eq_true] at hq
        simpa using hq.2
    · rw [List.all_eq_true]
      intro x hx
      have hq := filterProp_of_mem_page
        (projMatches (optionalAuth verify st req) pp)
        (projLe pp.sortBy pp.sortOrder) st.projects
        ((pp.page?.getD 1 - 1) * pp.limit?.getD 20) (pp.limit?.getD 20) x hx
      unfold projMatches at hq
      rw [hna] at hq
      simp only [Bool.false_or, Bool.and_eq_true] at hq
      simpa using hq.1.1.1.1
    · rw [List.all_eq_true]
      intro x hx
      have hq := filterProp_of_mem_limited
        (fun w : Project => w.isFeatured &&
          (isAdminUser (optionalAuth verify st req) || w.isVisible))
        (fun a b : Project =>
          if a.sortOrder == b.sortOrder then decide (b.createdAt ≤ a.createdAt)
          else decide (a.sortOrder ≤ b.sortOrder))
        st.projects (flim.getD 6) x (by exact hx)
      rw [hna] at hq
      simp only [Bool.false_or, Bool.and_eq_true] at hq
      simpa using hq.2
    · unfold getProjectById
      dsimp only
      split
      · rfl
      · next x heq =>
        have hq := List.find?_some heq
        rw [hna] at hq
        simp only [Bool.false_or, Bool.and_eq_true] at hq
        simpa using hq.2
  · intro hadm
    have hia : isAdminUser (some u) = true := by
      simp [isAdminUser, hadm]
    constructor
    · unfold eduMatches
      rw [hia]
      simp
    · unfold projMatches
      rw [hia]
      simp [projSearchMatch]
  · intro hadm
    constructor
    · unfold getEducationById
      dsimp only
      have hpred : (fun x : EducationRec => x.id == eid &&
          (isAdminUser (optionalAuth verify st req) || x.isVisible)) =
          (fun x : EducationRec => x.id == eid) := by
        funext x
        rw [hadm]
        simp
      rw [hpred]
      split
      · next heq => rw [heq]
      · next x heq => rw [heq]
    · unfold getProjectById
      dsimp only
      have hpred : (fun x : Project => x.id == pid &&
          (isAdminUser (optionalAuth verify st req) || x.isVisible)) =
          (fun x : Project => x.id == pid) := by
        funext x
        rw [hadm]
        simp
      rw [hpred]
      split
      · next heq => rw [heq]
      · next x heq => rw [heq]

/-- C1 witness: the education list produced for an unauthenticated
caller over the sample store holds only visible records, and the admin
query predicate ignores isVisible on the hidden sample record. -/
theorem nonAdminReadsOnlyVisible_witness :
    (getEducationList rejectAllTokens sampleStore noTokenReq {}).2.all
      (fun x => x.isVisible) = true ∧
    eduMatches (some sampleAdminPrincipal) none
        {sampleHiddenEdu with isVisible := true} =
      eduMatches (some sampleAdminPrincipal) none sampleHiddenEdu := by
  have h := nonAdminReadsOnlyVisible rejectAllTokens sampleStore noTokenReq
    {} {} 10 7 none true sampleAdminPrincipal sampleHiddenEdu sampleProject
  exact ⟨(h.1 rfl).1, (h.2.1 rfl).1⟩

/-- C9 counterexample: on the body with name Jo, email bad, subject Hi
and message short, the validator chain emits errors for email, subject
and message only: the 2-character name meets its 2-character minimum,
so the name error the claim demands is absent. -/
theorem contactValidationExampleCounterexample :
    (contactValidationErrors "Jo" "bad" "Hi" "short" none).map FieldError.path =
      ["email", "subject", "message"] ∧
    ¬ "name" ∈ (contactValidationErrors "Jo" "bad" "Hi" "short" none).map
        FieldError.path := by
  constructor
  · rfl
  · decide

/-- C9 amended: that body yields 400 with a format error for email and
minimum-length errors for subject and message; name passes validation
and the store is unchanged. -/
theorem contactValidationExampleAmended :
    (submitContact sampleStore 99 0 "Jo" "bad" "Hi" "short" none "127.0.0.1").1.status = 400 ∧
    (submitContact sampleStore 99 0 "Jo" "bad" "Hi" "short" none "127.0.0.1").1.errors.map
        FieldError.path = ["email", "subject", "message"] ∧
    (submitContact sampleStore 99 0 "Jo" "bad" "Hi" "short" none "127.0.0.1").2 =
      sampleStore := by
  refine ⟨rfl, rfl, rfl⟩

/-- C10: no user-returning operation exposes the password field: the
user list, the single-user read, the role and status update responses
and the serialized principal attached by protect all carry documents
without a password key. -/
theorem userResponsesExcludePassword (st : Store) (pu : UserListParams)
    (id targetId : Nat) (p : Principal) (role : String) (active : Bool)
    (q : Principal) :
    (getAllUsers st pu).users.all
      (fun d => d.all (fun kv => !(kv.1 == "password"))) = true ∧
    ((getUserById st id).user.all
      (fun d => d.all (fun kv => !(kv.1 == "password")))) = true ∧
    ((updateUserRole st p targetId role).1.user.all
      (fun d => d.all (fun kv => !(kv.1 == "password")))) = true ∧
    ((updateUserStatus st p targetId active).1.user.all
      (fun d => d.all (fun kv => !(kv.1 == "password")))) = true ∧
    (principalDoc q).all (fun kv => !(kv.1 == "password")) = true := by
  refine ⟨?_, ?_, ?_, ?_, rfl⟩
  · rw [List.all_eq_true]
    intro d hd
    unfold getAllUsers at hd
    dsimp only at hd
    rcases List.mem_map.mp hd with ⟨w, _, rfl⟩
    exact selectNoPassword_no_key (userDoc w)
  · unfold getUserById
    split
    · rfl
    · next w heq => exact selectNoPassword_no_key (userDoc w)
  · unfold updateUserRole
    split
    · rfl
    · split
      · rfl
      · dsimp only
        split
        · rfl
        · next w heq => exact selectNoPassword_no_key (userDoc {w with role := role})
  · unfold updateUserStatus
    split
    · rfl
    · dsimp only
      split
      · rfl
      · next w heq =>
        exact selectNoPassword_no_key (userDoc {w with isActive := active})

end Portfolio
